import Mathlib

/-!
Verification development for the histogram engine of
`glean-wasm-experiment` (`src/lib.rs`, `src/util.rs`).

Modelling conventions.

* Rust `u64`/`u32`/`usize` values are modelled as `Nat`.  The inputs of the
  three entry points are machine integers (`u64` samples, `u32` ranges); on
  the clamped domains used by the code every intermediate value stays far
  below `2 ^ 64`, so `Nat` arithmetic agrees with the machine arithmetic.
  Discriminant codes are Rust `i32` and are modelled as `Int`.
* A Rust panic (from `.expect(..)`) aborts the call; the entry points are
  therefore embedded as functions into `Except GleanError String`, a panic
  becoming `Except.error (GleanError.panic msg)`.  The `GleanError.invalidArgument`
  constructor is never produced by the embedded code; it exists so that the
  distinction between a process-aborting panic and a typed validation error
  (the distinction the specification draws in its error-handling design)
  is expressible in statements.
* The repository declares `mod error; mod histogram; mod units;` but only
  `lib.rs` and `util.rs` are available.  Definitions for the missing
  modules are marked `Modelled from the spec:` in their doc comments and
  follow the specification's description of them; `lib.rs` and `util.rs`
  are embedded directly from the source.
-/

namespace Glean

/-- Error type of an embedded call.  `panic` is a Rust panic (process
abort) carrying the panic message; `invalidArgument` is a typed
invalid-argument error naming the offending argument.  The embedded code
only ever produces `panic`. -/
inductive GleanError where
  | panic (msg : String)
  | invalidArgument (arg : String)
deriving DecidableEq

/-! ## Units (`Modelled from the spec:` `units.rs` is not under `src/`).

The spec describes the unit converters as pure lookup tables from an
integer unit code to a multiplicative conversion factor — time units to
nanoseconds, memory units to bytes — with any unknown code an
invalid-input error.  The time units named by the source comments in
`lib.rs` (nanosecond, microsecond, millisecond) are modelled with codes
0, 1, 2; the memory units are modelled as byte, kilobyte, megabyte,
gigabyte with codes 0, 1, 2, 3 and binary factors. -/

/-- Modelled from the spec: closed time-unit enum mapped from small integers. -/
inductive TimeUnit where
  | nanosecond
  | microsecond
  | millisecond
deriving DecidableEq

/-- Modelled from the spec: `TryFrom<i32>` for the time-unit enum; codes
outside the known set are rejected (`none`). -/
def TimeUnit.tryFrom (code : Int) : Option TimeUnit :=
  if code = 0 then some .nanosecond
  else if code = 1 then some .microsecond
  else if code = 2 then some .millisecond
  else none

/-- Modelled from the spec: conversion of a sample in the given time unit
to nanoseconds by the unit's multiplicative factor. -/
def TimeUnit.asNanos : TimeUnit → Nat → Nat
  | .nanosecond, s => s
  | .microsecond, s => s * 1000
  | .millisecond, s => s * 1000000

/-- Modelled from the spec: closed memory-unit enum mapped from small integers. -/
inductive MemoryUnit where
  | byte
  | kilobyte
  | megabyte
  | gigabyte
deriving DecidableEq

/-- Modelled from the spec: `TryFrom<i32>` for the memory-unit enum; codes
outside the known set are rejected (`none`). -/
def MemoryUnit.tryFrom (code : Int) : Option MemoryUnit :=
  if code = 0 then some .byte
  else if code = 1 then some .kilobyte
  else if code = 2 then some .megabyte
  else if code = 3 then some .gigabyte
  else none

/-- Modelled from the spec: conversion of a sample in the given memory
unit to bytes by the unit's multiplicative factor. -/
def MemoryUnit.asBytes : MemoryUnit → Nat → Nat
  | .byte, s => s
  | .kilobyte, s => s * 1024
  | .megabyte, s => s * 1024 * 1024
  | .gigabyte, s => s * 1024 * 1024 * 1024

/-- Modelled from the spec: closed histogram-type enum `{Linear, Exponential}`
mapped from the integers `{0, 1}`. -/
inductive HistogramType where
  | linear
  | exponential
deriving DecidableEq

/-- Modelled from the spec: `TryFrom<i32>` for `HistogramType`; any integer
other than 0 or 1 is rejected (`none`), never silently defaulted. -/
def HistogramType.tryFrom (code : Int) : Option HistogramType :=
  if code = 0 then some .linear
  else if code = 1 then some .exponential
  else none

/-! ## Integer helpers for the functional (logarithmic) bucketing.

The spec's functional strategy uses
`index = floor(buckets_per_magnitude * log(s) / log(log_base))` and
`bucket_lower_bound(index) = ceil(log_base ^ (index / buckets_per_magnitude))`.
For the instantiations the source uses (`log_base = 2.0` with
`buckets_per_magnitude = 8.0` or `16.0`) both parameters are positive
integers `b` and `k`, and these formulas have exact integer realizations:

* `floor(k * log_b s) = floor(log_b (s ^ k))`, the largest `e` with
  `b ^ e ≤ s ^ k`, computed by `floorLog b (s ^ k)`;
* `ceil(b ^ (e / k))` is the least `n` with `n ^ k ≥ b ^ e`, computed by
  `natCeilRoot (b ^ e) k`.

Both helpers use an explicit fuel argument so that they are structural
recursions the kernel can evaluate. -/

/-- `floorLogAux b fuel m` counts how many times `m` can be divided by `b`
before falling below `b`.  With enough fuel this is `⌊log_b m⌋` for
`b ≥ 2`, `m ≥ 1`. -/
def floorLogAux (b : Nat) : Nat → Nat → Nat
  | 0, _ => 0
  | fuel + 1, m => if m < b then 0 else floorLogAux b fuel (m / b) + 1

/-- `⌊log_b m⌋` for `b ≥ 2` and `m ≥ 1` (and `0` on degenerate inputs):
the largest `e` with `b ^ e ≤ m`.  Fuel `m` suffices since each step
divides `m` by `b ≥ 2`. -/
def floorLog (b m : Nat) : Nat :=
  floorLogAux b m m

/-- Bisection kernel for `natCeilRoot`: maintains `lo ^ k < n ≤ hi ^ k`
and narrows `[lo, hi]` until `hi = lo + 1`. -/
def ceilRootAux (n k : Nat) : Nat → Nat → Nat → Nat
  | 0, _, hi => hi
  | fuel + 1, lo, hi =>
    if hi ≤ lo + 1 then hi
    else
      let mid := (lo + hi) / 2
      if n ≤ mid ^ k then ceilRootAux n k fuel lo mid
      else ceilRootAux n k fuel mid hi

/-- Least `m` with `m ^ k ≥ n` (for `k ≥ 1`): the ceiling of the `k`-th
root of `n`.  Fuel `n` amply covers the `O(log n)` bisection steps. -/
def natCeilRoot (n k : Nat) : Nat :=
  if n ≤ 1 then n else ceilRootAux n k n 0 n

/-- Largest `m` with `m ^ k ≤ n` (for `k ≥ 1`, `n ≥ 1`): the floor of the
`k`-th root of `n`, derived from `natCeilRoot`. -/
def natFloorRoot (n k : Nat) : Nat :=
  let c := natCeilRoot n k
  if c ^ k = n then c else c - 1

/-! ## Bucketing strategies (`Modelled from the spec:` `histogram.rs` is
not under `src/`). -/

/-- Modelled from the spec: the linear strategy's parameters
`range_min`, `range_max`, `bucket_count`; buckets are equal-width
`[min + i*w, min + (i+1)*w)` with `w = (max-min)/bucket_count`
(integer width; the spec does not fix the rounding of `w`). -/
structure Linear where
  range_min : Nat
  range_max : Nat
  bucket_count : Nat
deriving DecidableEq

/-- Modelled from the spec: linear bucket index.  Underflow collapses into
bucket 0, overflow into the final bucket; otherwise
`floor((s - range_min) / w)` clamped to `[0, bucket_count - 1]`. -/
def Linear.bucketIndex (l : Linear) (s : Nat) : Nat :=
  if s < l.range_min then 0
  else if l.range_max ≤ s then l.bucket_count - 1
  else
    min ((s - l.range_min) / ((l.range_max - l.range_min) / l.bucket_count))
      (l.bucket_count - 1)

/-- Modelled from the spec: the externally visible key of the bucket a
sample falls in — the bucket's lower boundary
`range_min + index * w`. -/
def Linear.sampleToBucketMinimum (l : Linear) (s : Nat) : Nat :=
  l.range_min + l.bucketIndex s * ((l.range_max - l.range_min) / l.bucket_count)

/-- Modelled from the spec: the exponential strategy owns its boundary
sequence, precomputed once at construction. -/
structure Exponential where
  bucket_ranges : List Nat
deriving DecidableEq

/-- One geometric step of the exponential boundary precomputation:
with `steps` boundaries still to be placed between `cur` and `rmax`, the
next boundary is the integer geometric interpolation
`(cur ^ (steps - 1) * rmax) ^ (1 / steps)`, forced to at least `cur + 1`
so that merged (duplicate) boundaries collapse into a strictly
increasing sequence.  The spec leaves the exact integer tie-break of the
geometric interpolation open and asks only for strictly increasing
integer boundaries; this is the rule chosen here. -/
def expoStep (cur rmax steps : Nat) : Nat :=
  max (cur + 1) (natFloorRoot (cur ^ (steps - 1) * rmax) steps)

/-- Emits `n` strictly increasing boundaries starting at `cur`, stepping
geometrically toward `rmax`. -/
def expoGo (rmax : Nat) : Nat → Nat → List Nat
  | _, 0 => []
  | cur, n + 1 => cur :: expoGo rmax (expoStep cur rmax (n + 1)) n

/-- Modelled from the spec: the precomputed exponential boundary
sequence.  The first boundary is `range_min`, or 1 if `range_min` is 0
(a zero-width first bucket is meaningless); later boundaries grow
geometrically toward `range_max`, duplicates merged so the sequence is
strictly increasing. -/
def exponentialRanges (rmin rmax count : Nat) : List Nat :=
  expoGo rmax (max rmin 1) count

/-- Scans a boundary list for the last boundary `≤ s`, starting from the
boundary `cur` already known to be the current candidate. -/
def lastBoundaryLE (s : Nat) : Nat → List Nat → Nat
  | cur, [] => cur
  | cur, r :: rest => if r ≤ s then lastBoundaryLE s r rest else cur

/-- Modelled from the spec: exponential bucket lookup — the last
precomputed boundary `≤ s`; samples below the first boundary map to
bucket 0 (the first boundary), samples at or above the last boundary map
to the final bucket. -/
def Exponential.sampleToBucketMinimum (e : Exponential) (s : Nat) : Nat :=
  match e.bucket_ranges with
  | [] => 0
  | r :: rest => if r ≤ s then lastBoundaryLE s r rest else r

/-- Modelled from the spec: the functional (logarithmic) strategy's
parameters `log_base` and `buckets_per_magnitude`.  The source stores
them as `f64`; both instantiations the source uses (`2.0` with `8.0`
or `16.0`) are exactly representable, so they are modelled as
rationals. -/
structure Functional where
  log_base : ℚ
  buckets_per_magnitude : ℚ
deriving DecidableEq

/-- Modelled from the spec: functional bucket lookup.  A sample of 0 is
treated as 1 (the logarithm of zero is undefined, and zero is a
meaningful low-magnitude sample); then
`index = floor(buckets_per_magnitude * log(s) / log(log_base))` and the
key is `bucket_lower_bound(index) = ceil(log_base ^ (index / buckets_per_magnitude))`.
For the integer-valued parameters `b = log_base`, `k = buckets_per_magnitude`
used by the source these are realized exactly in integer arithmetic as
`floorLog b (s ^ k)` and `natCeilRoot (b ^ index) k` (see the helper
section above). -/
def Functional.sampleToBucketMinimum (f : Functional) (sample : Nat) : Nat :=
  let b := f.log_base.num.toNat
  let k := f.buckets_per_magnitude.num.toNat
  let s := max sample 1
  let idx := floorLog b (s ^ k)
  natCeilRoot (b ^ idx) k

/-- Modelled from the spec: the polymorphic bucketing capability a
histogram is generic over — mapping a raw sample to the lower boundary
of its bucket, the externally visible key. -/
class Bucketing (B : Type) where
  sampleToBucketMinimum : B → Nat → Nat

instance : Bucketing Linear := ⟨Linear.sampleToBucketMinimum⟩

instance : Bucketing Exponential := ⟨Exponential.sampleToBucketMinimum⟩

instance : Bucketing Functional := ⟨Functional.sampleToBucketMinimum⟩

/-! ## Histogram (`Modelled from the spec:` `histogram.rs` is not under
`src/`). -/

/-- Modelled from the spec: the histogram owns one bucketing strategy
instance and the running aggregate — sparse bucket counts (kept as an
association list sorted by bucket key in ascending order; absent keys
mean zero, present keys have count `> 0`), the total sample count, and
the running sum. -/
structure Histogram (B : Type) where
  bucketing : B
  values : List (Nat × Nat)
  count : Nat
  sum : Nat

/-- Inserts key `key` into a sorted sparse count list, incrementing its
count by 1 (creating it at count 1 when absent). -/
def bumpValues : List (Nat × Nat) → Nat → List (Nat × Nat)
  | [], key => [(key, 1)]
  | (k, c) :: rest, key =>
    if key < k then (key, 1) :: (k, c) :: rest
    else if key = k then (k, c + 1) :: rest
    else (k, c) :: bumpValues rest key

/-- Modelled from the spec: `accumulate(sample)` resolves the bucket via
the owned strategy, increments that bucket's count by 1, increments
`sample_count` by 1, and adds `sample` to `sum`.  It always succeeds for
any non-negative sample (strategies clamp, never fail). -/
def Histogram.accumulate [Bucketing B] (h : Histogram B) (sample : Nat) : Histogram B :=
  { h with
    values := bumpValues h.values (Bucketing.sampleToBucketMinimum h.bucketing sample)
    count := h.count + 1
    sum := h.sum + sample }

/-- Modelled from the spec: the full snapshot
`{values: snapshot_values(), sum, count: sample_count}`. -/
structure Snapshot where
  values : List (Nat × Nat)
  sum : Nat
  count : Nat
deriving DecidableEq

/-- Modelled from the spec: `snapshot_values()` — the sparse mapping
`{bucket_lower_bound -> count}` of all populated buckets, keys
ascending. -/
def Histogram.snapshotValues (h : Histogram B) : List (Nat × Nat) :=
  h.values

/-- Modelled from the spec: `snapshot()` — values plus the running sum
and the total sample count. -/
def Histogram.snapshot (h : Histogram B) : Snapshot :=
  { values := h.values, sum := h.sum, count := h.count }

/-- Modelled from the spec: `Histogram::linear(min, max, count)` — a fresh
empty histogram owning a linear strategy with the given parameters.  The
visible caller in `lib.rs` uses this constructor infallibly (its result
feeds plain `Histogram` values and the wrapper returns a plain string),
so the constructor is total. -/
def Histogram.linear (rangeMin rangeMax bucketCount : Nat) : Histogram Linear :=
  { bucketing := { range_min := rangeMin, range_max := rangeMax, bucket_count := bucketCount }
    values := [], count := 0, sum := 0 }

/-- Modelled from the spec: `Histogram::exponential(min, max, count)` — a
fresh empty histogram owning an exponential strategy whose boundary
sequence is precomputed at construction.  Total, as above. -/
def Histogram.exponential (rangeMin rangeMax bucketCount : Nat) : Histogram Exponential :=
  { bucketing := { bucket_ranges := exponentialRanges rangeMin rangeMax bucketCount }
    values := [], count := 0, sum := 0 }

/-- Modelled from the spec: `Histogram::functional(log_base, buckets_per_magnitude)`
— a fresh empty histogram owning a functional strategy with the given
parameters. -/
def Histogram.functional (logBase bucketsPerMagnitude : ℚ) : Histogram Functional :=
  { bucketing := { log_base := logBase, buckets_per_magnitude := bucketsPerMagnitude }
    values := [], count := 0, sum := 0 }

/-! ## Serialization.

`lib.rs` serializes with `serde_json::to_string`; the spec fixes the wire
format: the values map renders as a JSON object keyed by decimal bucket
lower bounds in ascending order, and the full snapshot as
`{"values": ..., "sum": ..., "count": ...}`. -/

/-- Renders the entries of the sparse values map, comma separated. -/
def renderEntries : List (Nat × Nat) → String
  | [] => ""
  | [(k, c)] => "\"" ++ toString k ++ "\":" ++ toString c
  | (k, c) :: e :: rest =>
    "\"" ++ toString k ++ "\":" ++ toString c ++ "," ++ renderEntries (e :: rest)

/-- JSON object for a sparse values map. -/
def renderValues (l : List (Nat × Nat)) : String :=
  "\x7b" ++ renderEntries l ++ "\x7d"

/-- JSON object for a full snapshot: values, sum, count. -/
def renderSnapshot (s : Snapshot) : String :=
  "\x7b\"values\":" ++ renderValues s.values ++ ",\"sum\":" ++ toString s.sum
    ++ ",\"count\":" ++ toString s.count ++ "\x7d"

/-! ## Entry points — embedded from `src/lib.rs`. -/

/-- The base of the logarithm used to determine bucketing (function-local
`LOG_BASE` of `accumulate_samples_timing_distribution`). -/
def LOG_BASE_TIMING : ℚ := 2

/-- The buckets per each order of magnitude of the logarithm
(function-local `BUCKETS_PER_MAGNITUDE` of
`accumulate_samples_timing_distribution`). -/
def BUCKETS_PER_MAGNITUDE_TIMING : ℚ := 8

/-- Maximum time: ten minutes in nanoseconds
(`1000 * 1000 * 1000 * 60 * 10`, function-local `MAX_SAMPLE_TIME`). -/
def MAX_SAMPLE_TIME : Nat := 1000 * 1000 * 1000 * 60 * 10

/-- The base of the logarithm used to determine bucketing (function-local
`LOG_BASE` of `accumulate_samples_memory_distribution`). -/
def LOG_BASE_MEMORY : ℚ := 2

/-- The buckets per each order of magnitude of the logarithm
(function-local `BUCKETS_PER_MAGNITUDE` of
`accumulate_samples_memory_distribution`). -/
def BUCKETS_PER_MAGNITUDE_MEMORY : ℚ := 16

/-- Maximum recordable memory value: 1 terabyte (`1 << 40`,
function-local `MAX_BYTES`). -/
def MAX_BYTES : Nat := 1 <<< 40

/-- `accumulate_samples_custom_distribution` from `lib.rs`: validates
`histogram_type` (panicking on an unknown code, via `.expect`), selects
the linear or exponential strategy, folds `accumulate` over the samples,
and serializes `snapshot_values()`. -/
def accumulate_samples_custom_distribution (range_min range_max bucket_count : Nat)
    (histogram_type : Int) (samples : List Nat) : Except GleanError String :=
  match HistogramType.tryFrom histogram_type with
  | none => .error (.panic ("Invalid value for histogram_type!"))
  | some .linear =>
    .ok (renderValues
      ((samples.foldl Histogram.accumulate
        (Histogram.linear range_min range_max bucket_count)).snapshotValues))
  | some .exponential =>
    .ok (renderValues
      ((samples.foldl Histogram.accumulate
        (Histogram.exponential range_min range_max bucket_count)).snapshotValues))

/-- The per-sample pre-clamping of the timing loop in `lib.rs`, performed
before unit conversion: 0 becomes 1; anything above `MAX_SAMPLE_TIME` is
clamped to `MAX_SAMPLE_TIME`. -/
def timingPreprocess (sample : Nat) : Nat :=
  if sample = 0 then 1
  else if sample > MAX_SAMPLE_TIME then MAX_SAMPLE_TIME
  else sample

/-- One iteration of the timing loop in `lib.rs`: once a panic has
occurred the loop is over (the panic aborts the call); otherwise the
sample is pre-clamped, the unit code is converted (panicking on an
unknown code, via `.expect`), and the converted value is accumulated. -/
def timingStep (time_unit : Int) (acc : Except GleanError (Histogram Functional))
    (sample : Nat) : Except GleanError (Histogram Functional) :=
  match acc with
  | .error e => .error e
  | .ok hist =>
    let s1 := timingPreprocess sample
    match TimeUnit.tryFrom time_unit with
    | none => .error (.panic ("Invalid valid for time_unit!"))
    | some tu => .ok (hist.accumulate (tu.asNanos s1))

/-- `accumulate_samples_timing_distribution` from `lib.rs`: a fresh
functional histogram with `LOG_BASE` 2 and `BUCKETS_PER_MAGNITUDE` 8,
the per-sample loop, and the serialized full snapshot. -/
def accumulate_samples_timing_distribution (time_unit : Int) (samples : List Nat) :
    Except GleanError String :=
  match samples.foldl (timingStep time_unit)
      (.ok (Histogram.functional LOG_BASE_TIMING BUCKETS_PER_MAGNITUDE_TIMING)) with
  | .error e => .error e
  | .ok hist => .ok (renderSnapshot hist.snapshot)

/-- One iteration of the memory loop in `lib.rs`: once a panic has
occurred the loop is over; otherwise the unit code is converted
(panicking on an unknown code, via `.expect`), the sample is converted
to bytes, the converted value is clamped to `MAX_BYTES`, and the result
is accumulated. -/
def memoryStep (memory_unit : Int) (acc : Except GleanError (Histogram Functional))
    (sample : Nat) : Except GleanError (Histogram Functional) :=
  match acc with
  | .error e => .error e
  | .ok hist =>
    match MemoryUnit.tryFrom memory_unit with
    | none => .error (.panic ("Invalid valid for memory_unit!"))
    | some mu =>
      let s1 := mu.asBytes sample
      let s2 := if s1 > MAX_BYTES then MAX_BYTES else s1
      .ok (hist.accumulate s2)

/-- `accumulate_samples_memory_distribution` from `lib.rs`: a fresh
functional histogram with `LOG_BASE` 2 and `BUCKETS_PER_MAGNITUDE` 16,
the per-sample loop, and the serialized full snapshot. -/
def accumulate_samples_memory_distribution (memory_unit : Int) (samples : List Nat) :
    Except GleanError String :=
  match samples.foldl (memoryStep memory_unit)
      (.ok (Histogram.functional LOG_BASE_MEMORY BUCKETS_PER_MAGNITUDE_MEMORY)) with
  | .error e => .error e
  | .ok hist => .ok (renderSnapshot hist.snapshot)

/-! ## Floating-point determinism context — embedded from `src/util.rs`.

The floating-point control word mutated through the external
`_controlfp_s` is modelled as explicit state: a `Nat` holding the word.
`_controlfp_s` itself is an external CRT function (not repository code);
the contract of the CRT the `windows`/`gnu` cfg links (mingw-w64, as
also implemented by Wine) is: for every bit set in `mask`, update the
corresponding control-word bit from `new`, and report the resulting —
post-update — control word (with `mask = 0` nothing changes and the
current word is reported).  The repository's `util.rs` is embedded on
top of that contract.  `util.rs` holds two `cfg` variants of the
module: the Windows/gnu variant that saves the word `_controlfp_s`
reports at acquisition and writes it back on drop, and the variant for
every other platform, whose context is an empty struct with no `Drop` —
it performs no state mutation at all. -/

/-- Rounding control mask (`MCW_RC`). -/
def MCW_RC : Nat := 0x00000300

/-- Round by truncation (`RC_CHOP`). -/
def RC_CHOP : Nat := 0x00000300

/-- Precision control mask (`MCW_PC`). -/
def MCW_PC : Nat := 0x00030000

/-- Values for 64-bit precision (`PC_64`). -/
def PC_64 : Nat := 0x00000000

/-- All bits of a `size_t` control word. -/
def USIZE_MASK : Nat := 2 ^ 64 - 1

/-- Masked update of the control word: every bit set in `mask` is taken
from `newControl`, every other bit keeps its value from `state`. -/
def controlfpUpdate (state newControl mask : Nat) : Nat :=
  (state &&& (USIZE_MASK ^^^ mask)) ||| (newControl &&& mask)

/-- Contract of the external `_controlfp_s` (mingw-w64 CRT / Wine):
applies the masked update and reports the post-update control word —
the word stored through the out-parameter is the word after the new
masked bits have been set, not the prior word (with `mask = 0` the
update is the identity on a 64-bit word, so the current word is
reported unchanged). -/
def controlfp_s (state newControl mask : Nat) : Nat × Nat :=
  let updated := controlfpUpdate state newControl mask
  (updated, updated)

namespace floating_point_context_windows

/-- The `cfg(all(target_os = "windows", target_env = "gnu"))` variant of
`FloatingPointContext`: holds the control word captured at
acquisition. -/
structure FloatingPointContext where
  original_value : Nat

/-- `FloatingPointContext::new` of the Windows/gnu variant: forces 64-bit
precision and truncation rounding through `_controlfp_s`, keeping the
word the call reports as `original_value`. -/
def FloatingPointContext.new (state : Nat) : FloatingPointContext × Nat :=
  let r := controlfp_s state (PC_64 ||| RC_CHOP) (MCW_PC ||| MCW_RC)
  ({ original_value := r.1 }, r.2)

/-- `Drop for FloatingPointContext` of the Windows/gnu variant: writes
`original_value` back through `_controlfp_s` under the same mask. -/
def FloatingPointContext.drop (ctx : FloatingPointContext) (state : Nat) : Nat :=
  (controlfp_s state ctx.original_value (MCW_PC ||| MCW_RC)).2

end floating_point_context_windows

namespace floating_point_context_other

/-- The `cfg(not(..))` variant of `FloatingPointContext` for platforms
already matching the reference floating-point environment: an empty
struct. -/
structure FloatingPointContext

/-- `FloatingPointContext::new` of the portable variant: constructs the
empty struct; the floating-point state is untouched. -/
def FloatingPointContext.new (state : Nat) : FloatingPointContext × Nat :=
  (⟨⟩, state)

/-- Dropping the portable variant: the struct has no `Drop`
implementation, so the floating-point state is untouched. -/
def FloatingPointContext.drop (_ : FloatingPointContext) (state : Nat) : Nat :=
  state

end floating_point_context_other

/-! ## Spec-side definitions used for comparison. -/

/-- Follows the spec's words for the timing distribution call shape:
accumulate into a functional strategy configured with the given
`log_base` and `buckets_per_magnitude`, and return the serialized full
snapshot. -/
def specTimingCall (f : Functional) (time_unit : Int) (samples : List Nat) :
    Except GleanError String :=
  match samples.foldl (timingStep time_unit)
      (.ok (Histogram.functional f.log_base f.buckets_per_magnitude)) with
  | .error e => .error e
  | .ok hist => .ok (renderSnapshot hist.snapshot)

/-- Follows the spec's words for the memory distribution call shape:
accumulate into a functional strategy configured with the given
`log_base` and `buckets_per_magnitude`, and return the serialized full
snapshot. -/
def specMemoryCall (f : Functional) (memory_unit : Int) (samples : List Nat) :
    Except GleanError String :=
  match samples.foldl (memoryStep memory_unit)
      (.ok (Histogram.functional f.log_base f.buckets_per_magnitude)) with
  | .error e => .error e
  | .ok hist => .ok (renderSnapshot hist.snapshot)

/-! ## Loop lemmas. -/

/-- Once the timing loop has panicked, the remaining iterations change
nothing: the panic is the result. -/
theorem timingStep_error (u : Int) (e : GleanError) (l : List Nat) :
    l.foldl (timingStep u) (Except.error e) = Except.error e := by
  induction l with
  | nil => rfl
  | cons s rest ih =>
    rw [List.foldl_cons]
    exact ih

/-- Once the memory loop has panicked, the remaining iterations change
nothing: the panic is the result. -/
theorem memoryStep_error (m : Int) (e : GleanError) (l : List Nat) :
    l.foldl (memoryStep m) (Except.error e) = Except.error e := by
  induction l with
  | nil => rfl
  | cons s rest ih =>
    rw [List.foldl_cons]
    exact ih

/-- With a recognized time unit, one timing-loop iteration accumulates
the unit conversion of the pre-clamped sample. -/
theorem timingStep_ok (u : Int) (tu : TimeUnit) (h : TimeUnit.tryFrom u = some tu)
    (hist : Histogram Functional) (s : Nat) :
    timingStep u (.ok hist) s = .ok (hist.accumulate (tu.asNanos (timingPreprocess s))) := by
  simp [timingStep, h]

/-- With a recognized memory unit, one memory-loop iteration accumulates
the clamped byte conversion of the sample. -/
theorem memoryStep_ok (m : Int) (mu : MemoryUnit) (h : MemoryUnit.tryFrom m = some mu)
    (hist : Histogram Functional) (s : Nat) :
    memoryStep m (.ok hist) s
      = .ok (hist.accumulate (if mu.asBytes s > MAX_BYTES then MAX_BYTES else mu.asBytes s)) := by
  simp [memoryStep, h]

/-- With a recognized time unit the whole timing loop never panics and
equals the plain fold of `accumulate` over the converted, pre-clamped
samples. -/
theorem timing_fold_ok (u : Int) (tu : TimeUnit) (h : TimeUnit.tryFrom u = some tu) :
    ∀ (l : List Nat) (hist : Histogram Functional),
      l.foldl (timingStep u) (.ok hist)
        = .ok ((l.map fun s => tu.asNanos (timingPreprocess s)).foldl
            Histogram.accumulate hist) := by
  intro l
  induction l with
  | nil => intro hist; rfl
  | cons s rest ih =>
    intro hist
    rw [List.map_cons, List.foldl_cons, List.foldl_cons, timingStep_ok u tu h]
    exact ih _

/-- With a recognized memory unit the whole memory loop never panics and
equals the plain fold of `accumulate` over the converted, clamped
samples. -/
theorem memory_fold_ok (m : Int) (mu : MemoryUnit) (h : MemoryUnit.tryFrom m = some mu) :
    ∀ (l : List Nat) (hist : Histogram Functional),
      l.foldl (memoryStep m) (.ok hist)
        = .ok ((l.map fun s => if mu.asBytes s > MAX_BYTES then MAX_BYTES else mu.asBytes s).foldl
            Histogram.accumulate hist) := by
  intro l
  induction l with
  | nil => intro hist; rfl
  | cons s rest ih =>
    intro hist
    rw [List.map_cons, List.foldl_cons, List.foldl_cons, memoryStep_ok m mu h]
    exact ih _

/-! ## Claim theorems. -/

/-- Claim C1: in the timing distribution every sample is pre-processed
before unit conversion — 0 becomes 1, anything above the 10-minute
ceiling `MAX_SAMPLE_TIME = 600_000_000_000` becomes that ceiling — and
the value accumulated into the histogram is the unit-to-nanoseconds
conversion of this pre-processed value, for every sample in the input
list: with a recognized unit the call equals the fold of `accumulate`
over `samples.map (asNanos ∘ timingPreprocess)`. -/
theorem timing_clamps_then_converts (u : Int) (tu : TimeUnit)
    (h : TimeUnit.tryFrom u = some tu) (samples : List Nat) :
    MAX_SAMPLE_TIME = 600000000000
    ∧ accumulate_samples_timing_distribution u samples
        = .ok (renderSnapshot
            (((samples.map fun s => tu.asNanos (timingPreprocess s)).foldl
              Histogram.accumulate (Histogram.functional 2 8)).snapshot)) := by
  refine ⟨rfl, ?_⟩
  unfold accumulate_samples_timing_distribution
  rw [timing_fold_ok u tu h]
  rfl

/-- Witness for C1 at the nanosecond unit with the spec's own example
samples 0 and 700_000_000_000. -/
theorem timing_clamps_then_converts_witness :
    TimeUnit.tryFrom 0 = some TimeUnit.nanosecond
    ∧ MAX_SAMPLE_TIME = 600000000000
    ∧ accumulate_samples_timing_distribution 0 [0, 700000000000]
        = .ok (renderSnapshot
            ((([0, 700000000000].map fun s =>
                TimeUnit.asNanos TimeUnit.nanosecond (timingPreprocess s)).foldl
              Histogram.accumulate (Histogram.functional 2 8)).snapshot)) :=
  ⟨rfl, (timing_clamps_then_converts 0 TimeUnit.nanosecond rfl [0, 700000000000]).1,
    (timing_clamps_then_converts 0 TimeUnit.nanosecond rfl [0, 700000000000]).2⟩

/-- Claim C2: in the memory distribution every sample is first converted
to bytes via the memory unit's factor and the converted value is then
clamped to the ceiling `MAX_BYTES = 2 ^ 40`: with a recognized unit the
call equals the fold of `accumulate` over
`samples.map (clamp ∘ asBytes)`. -/
theorem memory_converts_then_clamps (m : Int) (mu : MemoryUnit)
    (h : MemoryUnit.tryFrom m = some mu) (samples : List Nat) :
    MAX_BYTES = 2 ^ 40
    ∧ accumulate_samples_memory_distribution m samples
        = .ok (renderSnapshot
            (((samples.map fun s =>
                if mu.asBytes s > MAX_BYTES then MAX_BYTES else mu.asBytes s).foldl
              Histogram.accumulate (Histogram.functional 2 16)).snapshot)) := by
  refine ⟨rfl, ?_⟩
  unfold accumulate_samples_memory_distribution
  rw [memory_fold_ok m mu h]
  rfl

/-- Witness for C2 at the byte unit with the spec's own example sample
`2 ^ 41`, whose converted value is clamped to `2 ^ 40`. -/
theorem memory_converts_then_clamps_witness :
    MemoryUnit.tryFrom 0 = some MemoryUnit.byte
    ∧ (if MemoryUnit.asBytes MemoryUnit.byte (2 ^ 41) > MAX_BYTES then MAX_BYTES
        else MemoryUnit.asBytes MemoryUnit.byte (2 ^ 41)) = 2 ^ 40
    ∧ accumulate_samples_memory_distribution 0 [2 ^ 41]
        = .ok (renderSnapshot
            ((([2 ^ 41].map fun s =>
                if MemoryUnit.asBytes MemoryUnit.byte s > MAX_BYTES then MAX_BYTES
                else MemoryUnit.asBytes MemoryUnit.byte s).foldl
              Histogram.accumulate (Histogram.functional 2 16)).snapshot)) :=
  ⟨rfl, by decide, (memory_converts_then_clamps 0 MemoryUnit.byte rfl [2 ^ 41]).2⟩

/-- Claim C3, counterexample: called with the unrecognized
`histogram_type = 2`, the custom distribution entry point does not
return a typed invalid-argument error — it panics (the `.expect` in
`lib.rs` aborts the process); the embedded call's failure is the
`GleanError.panic` carrying the expect message, not
`GleanError.invalidArgument`. -/
theorem custom_invalid_type_panics_concretely :
    accumulate_samples_custom_distribution 0 1 1 2 []
      = .error (.panic ("Invalid value for histogram_type!")) := rfl

/-- Claim C3, amended: a call to the custom distribution entry point
with an unrecognized `histogram_type` code (any sample list), and a
call to the timing or memory distribution entry point with an
unrecognized unit code and a non-empty sample list, fails by a panic
whose message names the offending argument, rather than returning a
typed invalid-argument error; with an empty sample list the timing and
memory entry points never reach the unit validation and succeed with
the serialized empty snapshot.  A panicking call is still
distinguishable from a successful call returning an empty histogram,
being `Except.error` rather than `Except.ok`. -/
theorem invalid_discriminant_panics_not_typed :
    (∀ ht : Int, HistogramType.tryFrom ht = none →
      ∀ (range_min range_max bucket_count : Nat) (samples : List Nat),
        accumulate_samples_custom_distribution range_min range_max bucket_count ht samples
          = .error (.panic ("Invalid value for histogram_type!")))
    ∧ (∀ u : Int, TimeUnit.tryFrom u = none →
      (∀ (s : Nat) (rest : List Nat),
        accumulate_samples_timing_distribution u (s :: rest)
          = .error (.panic ("Invalid valid for time_unit!")))
      ∧ accumulate_samples_timing_distribution u []
          = .ok (renderSnapshot { values := [], sum := 0, count := 0 }))
    ∧ (∀ m : Int, MemoryUnit.tryFrom m = none →
      (∀ (s : Nat) (rest : List Nat),
        accumulate_samples_memory_distribution m (s :: rest)
          = .error (.panic ("Invalid valid for memory_unit!")))
      ∧ accumulate_samples_memory_distribution m []
          = .ok (renderSnapshot { values := [], sum := 0, count := 0 })) := by
  refine ⟨?_, ?_, ?_⟩
  · intro ht h range_min range_max bucket_count samples
    unfold accumulate_samples_custom_distribution
    rw [h]
  · intro u h
    refine ⟨?_, rfl⟩
    intro s rest
    unfold accumulate_samples_timing_distribution
    rw [List.foldl_cons,
      show timingStep u
          (.ok (Histogram.functional LOG_BASE_TIMING BUCKETS_PER_MAGNITUDE_TIMING)) s
        = .error (.panic ("Invalid valid for time_unit!")) from by simp [timingStep, h],
      timingStep_error]
  · intro m h
    refine ⟨?_, rfl⟩
    intro s rest
    unfold accumulate_samples_memory_distribution
    rw [List.foldl_cons,
      show memoryStep m
          (.ok (Histogram.functional LOG_BASE_MEMORY BUCKETS_PER_MAGNITUDE_MEMORY)) s
        = .error (.panic ("Invalid valid for memory_unit!")) from by simp [memoryStep, h],
      memoryStep_error]

/-- Witness for the amended C3 at `histogram_type = 7`, `time_unit = -1`,
`memory_unit = 99`, covering both the non-empty (panic) and the empty
(success) sample lists for the unit-validating entry points. -/
theorem invalid_discriminant_panics_not_typed_witness :
    HistogramType.tryFrom 7 = none
    ∧ TimeUnit.tryFrom (-1) = none
    ∧ MemoryUnit.tryFrom 99 = none
    ∧ accumulate_samples_custom_distribution 0 10 2 7 [1]
        = .error (.panic ("Invalid value for histogram_type!"))
    ∧ accumulate_samples_timing_distribution (-1) (3 :: [])
        = .error (.panic ("Invalid valid for time_unit!"))
    ∧ accumulate_samples_timing_distribution (-1) []
        = .ok (renderSnapshot { values := [], sum := 0, count := 0 })
    ∧ accumulate_samples_memory_distribution 99 (4 :: [])
        = .error (.panic ("Invalid valid for memory_unit!"))
    ∧ accumulate_samples_memory_distribution 99 []
        = .ok (renderSnapshot { values := [], sum := 0, count := 0 }) :=
  ⟨rfl, by decide, by decide,
    invalid_discriminant_panics_not_typed.1 7 (by decide) 0 10 2 [1],
    (invalid_discriminant_panics_not_typed.2.1 (-1) (by decide)).1 3 [],
    (invalid_discriminant_panics_not_typed.2.1 (-1) (by decide)).2,
    (invalid_discriminant_panics_not_typed.2.2 99 (by decide)).1 4 [],
    (invalid_discriminant_panics_not_typed.2.2 99 (by decide)).2⟩

/-- Claim C4: the custom distribution entry point returns only the
serialized sparse values map (a `renderValues` image, which carries no
sum or count field), while the timing and memory distribution entry
points return the serialized full snapshot (a `renderSnapshot` image,
which carries values, sum, and count). -/
theorem output_shapes :
    (∀ (range_min range_max bucket_count : Nat) (ht : Int) (samples : List Nat) (out : String),
      accumulate_samples_custom_distribution range_min range_max bucket_count ht samples
          = .ok out →
      ∃ vals, out = renderValues vals)
    ∧ (∀ (u : Int) (samples : List Nat) (out : String),
      accumulate_samples_timing_distribution u samples = .ok out →
      ∃ snap : Snapshot, out = renderSnapshot snap)
    ∧ (∀ (m : Int) (samples : List Nat) (out : String),
      accumulate_samples_memory_distribution m samples = .ok out →
      ∃ snap : Snapshot, out = renderSnapshot snap) := by
  refine ⟨?_, ?_, ?_⟩
  · intro range_min range_max bucket_count ht samples out h
    unfold accumulate_samples_custom_distribution at h
    rcases hty : HistogramType.tryFrom ht with _ | t
    · rw [hty] at h
      exact absurd h (by simp)
    · cases t
      · rw [hty] at h
        injection h with h'
        exact ⟨_, h'.symm⟩
      · rw [hty] at h
        injection h with h'
        exact ⟨_, h'.symm⟩
  · intro u samples out h
    unfold accumulate_samples_timing_distribution at h
    rcases hfold : samples.foldl (timingStep u)
        (.ok (Histogram.functional LOG_BASE_TIMING BUCKETS_PER_MAGNITUDE_TIMING)) with e | hist
    · rw [hfold] at h
      exact absurd h (by simp)
    · rw [hfold] at h
      injection h with h'
      exact ⟨hist.snapshot, h'.symm⟩
  · intro m samples out h
    unfold accumulate_samples_memory_distribution at h
    rcases hfold : samples.foldl (memoryStep m)
        (.ok (Histogram.functional LOG_BASE_MEMORY BUCKETS_PER_MAGNITUDE_MEMORY)) with e | hist
    · rw [hfold] at h
      exact absurd h (by simp)
    · rw [hfold] at h
      injection h with h'
      exact ⟨hist.snapshot, h'.symm⟩

/-- Witness for C4 at concrete successful calls of all three entry
points. -/
theorem output_shapes_witness :
    (accumulate_samples_custom_distribution 0 10 2 0 [] = .ok (renderValues []))
    ∧ (∃ vals, renderValues ([] : List (Nat × Nat)) = renderValues vals)
    ∧ (accumulate_samples_timing_distribution 0 []
        = .ok (renderSnapshot { values := [], sum := 0, count := 0 }))
    ∧ (∃ snap : Snapshot,
        renderSnapshot { values := [], sum := 0, count := 0 } = renderSnapshot snap)
    ∧ (accumulate_samples_memory_distribution 0 []
        = .ok (renderSnapshot { values := [], sum := 0, count := 0 }))
    ∧ (∃ snap : Snapshot,
        renderSnapshot { values := [], sum := 0, count := 0 } = renderSnapshot snap) :=
  ⟨rfl, output_shapes.1 0 10 2 0 [] (renderValues []) rfl,
    rfl, output_shapes.2.1 0 [] (renderSnapshot { values := [], sum := 0, count := 0 }) rfl,
    rfl, output_shapes.2.2 0 [] (renderSnapshot { values := [], sum := 0, count := 0 }) rfl⟩

/-- Claim C5: on every call, the timing distribution entry point is the
spec's functional call shape configured with `log_base = 2` and
`buckets_per_magnitude = 8`, and the memory distribution entry point is
the spec's functional call shape configured with `log_base = 2` and
`buckets_per_magnitude = 16`. -/
theorem functional_strategy_parameters :
    (∀ (u : Int) (samples : List Nat),
      accumulate_samples_timing_distribution u samples
        = specTimingCall { log_base := 2, buckets_per_magnitude := 8 } u samples)
    ∧ (∀ (m : Int) (samples : List Nat),
      accumulate_samples_memory_distribution m samples
        = specMemoryCall { log_base := 2, buckets_per_magnitude := 16 } m samples) :=
  ⟨fun _ _ => rfl, fun _ _ => rfl⟩

/-- Claim C6, counterexample: called with the doubly degenerate
configuration `range_min = 1`, `range_max = 0`, `bucket_count = 0`
(linear type), the custom distribution entry point does not report a
configuration error at all — the degenerate configuration is silently
accepted and the call succeeds, accumulating the sample. -/
theorem degenerate_config_silently_accepted :
    accumulate_samples_custom_distribution 1 0 0 0 [5]
      = .ok (renderValues [(1, 1)]) := rfl

/-- Claim C6, amended: with `bucket_count = 0` or
`range_max ≤ range_min` and a recognized histogram type, the custom
distribution entry point does not return a typed configuration error to
the caller: the wrapper's only failure mode is the discriminant panic,
and a degenerate configuration is accepted silently — the call
succeeds. -/
theorem degenerate_config_no_typed_error (range_min range_max bucket_count : Nat)
    (ht : Int) (t : HistogramType)
    (_hdeg : bucket_count = 0 ∨ range_max ≤ range_min)
    (hty : HistogramType.tryFrom ht = some t) (samples : List Nat) :
    ∃ out, accumulate_samples_custom_distribution range_min range_max bucket_count ht samples
      = .ok out := by
  cases t
  · refine ⟨renderValues ((samples.foldl Histogram.accumulate
      (Histogram.linear range_min range_max bucket_count)).snapshotValues), ?_⟩
    unfold accumulate_samples_custom_distribution
    rw [hty]
  · refine ⟨renderValues ((samples.foldl Histogram.accumulate
      (Histogram.exponential range_min range_max bucket_count)).snapshotValues), ?_⟩
    unfold accumulate_samples_custom_distribution
    rw [hty]

/-- Witness for the amended C6 at the degenerate configuration
`range_min = 1`, `range_max = 0`, `bucket_count = 0`. -/
theorem degenerate_config_no_typed_error_witness :
    ((0 : Nat) = 0 ∨ (0 : Nat) ≤ 1)
    ∧ HistogramType.tryFrom 0 = some HistogramType.linear
    ∧ ∃ out, accumulate_samples_custom_distribution 1 0 0 0 [5] = .ok out :=
  ⟨Or.inl rfl, rfl,
    degenerate_config_no_typed_error 1 0 0 0 HistogramType.linear (Or.inl rfl) rfl [5]⟩

/-- Claim C7: each entry point called with its invalid discriminant
(`histogram_type = 2`, `time_unit = -1`, `memory_unit = 99`) and any
non-empty sample list rejects before any sample is processed: the
result is the validation panic — no accumulation survives and no
snapshot is produced — uniformly in the sample values. -/
theorem invalid_discriminants_reject_before_accumulation
    (range_min range_max bucket_count s : Nat) (rest : List Nat) :
    accumulate_samples_custom_distribution range_min range_max bucket_count 2 (s :: rest)
        = .error (.panic ("Invalid value for histogram_type!"))
    ∧ accumulate_samples_timing_distribution (-1) (s :: rest)
        = .error (.panic ("Invalid valid for time_unit!"))
    ∧ accumulate_samples_memory_distribution 99 (s :: rest)
        = .error (.panic ("Invalid valid for memory_unit!")) := by
  refine ⟨rfl, ?_, ?_⟩
  · unfold accumulate_samples_timing_distribution
    rw [List.foldl_cons,
      show timingStep (-1)
          (.ok (Histogram.functional LOG_BASE_TIMING BUCKETS_PER_MAGNITUDE_TIMING)) s
        = .error (.panic ("Invalid valid for time_unit!")) from rfl,
      timingStep_error]
  · unfold accumulate_samples_memory_distribution
    rw [List.foldl_cons,
      show memoryStep 99
          (.ok (Histogram.functional LOG_BASE_MEMORY BUCKETS_PER_MAGNITUDE_MEMORY)) s
        = .error (.panic ("Invalid valid for memory_unit!")) from rfl,
      memoryStep_error]

/-- Claim C8, evaluation at the failing input: since `_controlfp_s`
reports the post-update control word, `FloatingPointContext::new` saves
the already-forced word as `original_value`, and `Drop` writes that
forced mode back instead of the pre-acquisition state.  Starting from
the control word `0x12345` (precision bits `0x10000` set, rounding bits
clear), acquire-then-release leaves `0x2345` — precision forced to
`PC_64` and rounding to `RC_CHOP` — not the original `0x12345`: the
context does not restore the state as it was before acquisition. -/
theorem fp_context_release_does_not_restore :
    (floating_point_context_windows.FloatingPointContext.drop
        (floating_point_context_windows.FloatingPointContext.new 74565).1
        (floating_point_context_windows.FloatingPointContext.new 74565).2 = 9029)
    ∧ (9029 : Nat) ≠ 74565
    ∧ (9029 : Nat) &&& (MCW_PC ||| MCW_RC) = (PC_64 ||| RC_CHOP) :=
  ⟨by decide, by decide, by decide⟩

/-- Claim C10: with an empty samples list the per-sample loop — and so
the unit-code validation inside it — never runs: a call with an
arbitrary, even unrecognized, `time_unit` or `memory_unit` code
completes successfully and returns the serialization of an empty
snapshot rather than an error. -/
theorem empty_samples_skip_unit_validation :
    (∀ u : Int, accumulate_samples_timing_distribution u []
        = .ok (renderSnapshot { values := [], sum := 0, count := 0 }))
    ∧ (∀ m : Int, accumulate_samples_memory_distribution m []
        = .ok (renderSnapshot { values := [], sum := 0, count := 0 })) :=
  ⟨fun _ => rfl, fun _ => rfl⟩

end Glean
